import Mathlib

set_option maxHeartbeats 1000000

/-!
Shallow embedding of the Color Temperature object of
src/src/bacnet/basic/object/color_temperature.c, together with models of
its collaborators (the keyed object store, the device-wide name check and
the tag-codec byte counts) that live elsewhere in the repository and are
modelled here from the specification.
-/

/-- Error classes used by the Color Temperature object
(bacenum usage in the source file). -/
inductive BACNET_ERROR_CLASS where
  | errorClassDevice
  | errorClassObject
  | errorClassProperty
  | errorClassResources
  | errorClassServices
  deriving DecidableEq

abbrev ERROR_CLASS_OBJECT := BACNET_ERROR_CLASS.errorClassObject
abbrev ERROR_CLASS_PROPERTY := BACNET_ERROR_CLASS.errorClassProperty

/-- Error codes used by the Color Temperature object
(bacenum usage in the source file). -/
inductive BACNET_ERROR_CODE where
  | errorCodeUnknownObject
  | errorCodeUnknownProperty
  | errorCodeWriteAccessDenied
  | errorCodeValueOutOfRange
  | errorCodePropertyIsNotAnArray
  | errorCodeInvalidDataType
  deriving DecidableEq

abbrev ERROR_CODE_UNKNOWN_OBJECT := BACNET_ERROR_CODE.errorCodeUnknownObject
abbrev ERROR_CODE_UNKNOWN_PROPERTY := BACNET_ERROR_CODE.errorCodeUnknownProperty
abbrev ERROR_CODE_WRITE_ACCESS_DENIED := BACNET_ERROR_CODE.errorCodeWriteAccessDenied
abbrev ERROR_CODE_VALUE_OUT_OF_RANGE := BACNET_ERROR_CODE.errorCodeValueOutOfRange
abbrev ERROR_CODE_PROPERTY_IS_NOT_AN_ARRAY :=
  BACNET_ERROR_CODE.errorCodePropertyIsNotAnArray
abbrev ERROR_CODE_INVALID_DATA_TYPE := BACNET_ERROR_CODE.errorCodeInvalidDataType

/-- An (error class, error code) pair; the source writes the two enum fields
of the request structure together. -/
abbrev BACnetErrorPair := BACNET_ERROR_CLASS × BACNET_ERROR_CODE

/-- Property identifiers appearing in the Color Temperature object
(bacenum usage in the source file; the numeric enum values are immaterial
to the object's control flow, which only compares identifiers). -/
inductive BACNET_PROPERTY_ID where
  | objectIdentifier
  | objectName
  | objectType
  | presentValue
  | trackingValue
  | colorCommand
  | inProgress
  | defaultColorTemperature
  | defaultFadeTime
  | defaultRampRate
  | defaultStepIncrement
  | descriptionProp
  | transitionProp
  | minPresValue
  | maxPresValue
  | priorityArray
  | eventTimeStamps
  | proprietaryProp (n : Nat)
  deriving DecidableEq

abbrev PROP_OBJECT_IDENTIFIER := BACNET_PROPERTY_ID.objectIdentifier
abbrev PROP_OBJECT_NAME := BACNET_PROPERTY_ID.objectName
abbrev PROP_OBJECT_TYPE := BACNET_PROPERTY_ID.objectType
abbrev PROP_PRESENT_VALUE := BACNET_PROPERTY_ID.presentValue
abbrev PROP_TRACKING_VALUE := BACNET_PROPERTY_ID.trackingValue
abbrev PROP_COLOR_COMMAND := BACNET_PROPERTY_ID.colorCommand
abbrev PROP_IN_PROGRESS := BACNET_PROPERTY_ID.inProgress
abbrev PROP_DEFAULT_COLOR_TEMPERATURE :=
  BACNET_PROPERTY_ID.defaultColorTemperature
abbrev PROP_DEFAULT_FADE_TIME := BACNET_PROPERTY_ID.defaultFadeTime
abbrev PROP_DEFAULT_RAMP_RATE := BACNET_PROPERTY_ID.defaultRampRate
abbrev PROP_DEFAULT_STEP_INCREMENT := BACNET_PROPERTY_ID.defaultStepIncrement
abbrev PROP_DESCRIPTION := BACNET_PROPERTY_ID.descriptionProp
abbrev PROP_TRANSITION := BACNET_PROPERTY_ID.transitionProp
abbrev PROP_MIN_PRES_VALUE := BACNET_PROPERTY_ID.minPresValue
abbrev PROP_MAX_PRES_VALUE := BACNET_PROPERTY_ID.maxPresValue
abbrev PROP_PRIORITY_ARRAY := BACNET_PROPERTY_ID.priorityArray
abbrev PROP_EVENT_TIME_STAMPS := BACNET_PROPERTY_ID.eventTimeStamps

/-- Object types relevant to the name-uniqueness scan: the Color object,
the Color Temperature object, and the remaining types of the device. -/
inductive BACNET_OBJECT_TYPE where
  | objectColor
  | objectColorTemperature
  | otherType (n : Nat)
  deriving DecidableEq

abbrev OBJECT_COLOR := BACNET_OBJECT_TYPE.objectColor
abbrev OBJECT_COLOR_TEMPERATURE := BACNET_OBJECT_TYPE.objectColorTemperature

/-- Numeric enum value of an object type (10-bit type codes of the
standard; modelled from the spec, bacenum.h is not under src/). -/
def object_type_value : BACNET_OBJECT_TYPE → Nat
  | .objectColor => 53
  | .objectColorTemperature => 54
  | .otherType n => n

/-- Largest valid object instance plus one is the wildcard; bacdef.h is not
under src/ and the spec fixes the value: valid range 0..4194302, 4194303
reserved as the wildcard sentinel. -/
def BACNET_MAX_INSTANCE : Nat := 4194303

/-- Array-index sentinel meaning the whole property
(modelled from the spec: a sentinel value distinct from every concrete
array index). -/
def BACNET_ARRAY_ALL : Nat := 4294967295

/-- Error status returned by read-property handlers. -/
def BACNET_STATUS_ERROR : Int := -1

/-- Color command payload; the source stores it by value and the object
only initializes and copies its operation field
(lighting.h is not under src/; modelled from the spec's opaque
context-tagged wrapper value kind). -/
structure BACNET_COLOR_COMMAND where
  operation : Nat
  deriving DecidableEq

def BACNET_COLOR_OPERATION_NONE : Nat := 0

def BACNET_COLOR_OPERATION_IN_PROGRESS_IDLE : Nat := 0

/-- Out-of-range marker for the in-progress enum; its exact numeric value
is immaterial to every claim (lighting.h is not under src/). -/
def BACNET_COLOR_OPERATION_IN_PROGRESS_MAX : Nat := 5

def BACNET_COLOR_TRANSITION_NONE : Nat := 0

/-- The per-instance record of the Color Temperature object, mirroring
struct object_data of the source file.  C string pointers become
Option String, NULL being none. -/
structure object_data where
  Changed : Bool
  Write_Enabled : Bool
  Present_Value : Nat
  Tracking_Value : Nat
  Color_Command : BACNET_COLOR_COMMAND
  In_Progress : Nat
  Default_Color_Temperature : Nat
  Default_Fade_Time : Nat
  Default_Ramp_Rate : Nat
  Default_Step_Increment : Nat
  Transition : Nat
  Present_Value_Minimum : Nat
  Present_Value_Maximum : Nat
  Object_Name : Option String
  Description : Option String
  deriving DecidableEq

/-- The field values the create path assigns to a freshly allocated record
(the calloc-and-initialize block of Color_Temperature_Create). -/
def object_data_init : object_data where
  Changed := false
  Write_Enabled := false
  Present_Value := 0
  Tracking_Value := 0
  Color_Command := { operation := BACNET_COLOR_OPERATION_NONE }
  In_Progress := BACNET_COLOR_OPERATION_IN_PROGRESS_IDLE
  Default_Color_Temperature := 5000
  Default_Fade_Time := 0
  Default_Ramp_Rate := 0
  Default_Step_Increment := 0
  Transition := BACNET_COLOR_TRANSITION_NONE
  Present_Value_Minimum := 0
  Present_Value_Maximum := 0
  Object_Name := none
  Description := none

/-- Modelled from the spec: the keyed object store (keylist.c is not under
src/) is an ordered associative container keyed by instance number; lookup
returns the record stored under a key, or absent. -/
def Keylist_Data : List (Nat × object_data) → Nat → Option object_data
  | [], _ => none
  | (key, d) :: rest, k => if key = k then some d else Keylist_Data rest k

/-- Modelled from the spec: insertion into the keyed object store preserves
ascending order by instance number (keylist.c is not under src/). -/
def Keylist_Data_Add (key : Nat) (d : object_data) :
    List (Nat × object_data) → List (Nat × object_data)
  | [] => [(key, d)]
  | (k, e) :: rest =>
    if key < k then (key, d) :: (k, e) :: rest
    else (k, e) :: Keylist_Data_Add key d rest

/-- Modelled from the spec: removal from the keyed object store returns the
removed record, or absent when the key is not present, together with the
remaining store (keylist.c is not under src/). -/
def Keylist_Data_Delete :
    List (Nat × object_data) → Nat → Option object_data × List (Nat × object_data)
  | [], _ => (none, [])
  | (key, d) :: rest, k =>
    if key = k then (some d, rest)
    else
      let r := Keylist_Data_Delete rest k
      (r.1, (key, d) :: r.2)

/-- Modelled from the spec: number of records in the store. -/
def Keylist_Count (list : List (Nat × object_data)) : Nat := list.length

/-- Modelled from the spec: the "next empty key" of the keyed object store
is the lowest unused instance number greater than or equal to the start
value, finding gaps left by prior deletions (keylist.c is not under
src/). -/
def Keylist_Next_Empty_Key : List (Nat × object_data) → Nat → Nat
  | [], key => key
  | (k, _) :: rest, key =>
    if k < key then Keylist_Next_Empty_Key rest key
    else if k = key then Keylist_Next_Empty_Key rest (key + 1)
    else key

/-- In C the handlers mutate the record behind the pointer returned by
Keylist_Data; here that in-place mutation is the replacement of the first
record stored under the key. -/
def Keylist_Data_Update (k : Nat) (f : object_data → object_data) :
    List (Nat × object_data) → List (Nat × object_data)
  | [] => []
  | (key, d) :: rest =>
    if key = k then (key, f d) :: rest
    else (key, d) :: Keylist_Data_Update k f rest

/-- The device-visible state the Color Temperature translation unit reads
and writes: its own instance store, the device-wide database revision
counter, and — for the name-uniqueness scan — the name table of the other
object types of the device. -/
structure DeviceState where
  objectList : List (Nat × object_data)
  databaseRevision : Nat
  otherObjects : List (BACNET_OBJECT_TYPE × Nat × String)
  deriving DecidableEq

/-- Modelled from the spec: the device-wide database revision counter is
bumped on structural change (device.c is not under src/). -/
def Device_Inc_Database_Revision (st : DeviceState) : DeviceState :=
  { st with databaseRevision := st.databaseRevision + 1 }

/-- The default object name the source generates when no name is stored:
snprintf of COLOR-TEMPERATURE-%u. -/
def Color_Temperature_Default_Name (object_instance : Nat) : String :=
  "COLOR-TEMPERATURE-" ++ toString object_instance

/-- The name under which a live Color Temperature record answers the
device-wide name scan: the stored name, or the generated default
(the body of Color_Temperature_Object_Name). -/
def color_temperature_effective_name (object_instance : Nat)
    (obj : object_data) : String :=
  match obj.Object_Name with
  | some n => n
  | none => Color_Temperature_Default_Name object_instance

/-- Modelled from the spec: the device-wide object-name uniqueness check
spans all object types of the device (device.c is not under src/); each
live Color Temperature instance appears in that population under its own
object type, and the remaining population is the otherObjects table.  It
returns the type and instance of an object holding the name, or none. -/
def Device_Valid_Object_Name (st : DeviceState) (name : String) :
    Option (BACNET_OBJECT_TYPE × Nat) :=
  match st.objectList.find?
      (fun p => color_temperature_effective_name p.1 p.2 == name) with
  | some p => some (OBJECT_COLOR_TEMPERATURE, p.1)
  | none =>
    match st.otherObjects.find? (fun q => q.2.2 == name) with
    | some q => some (q.1, q.2.1)
    | none => none

/-- Color_Temperature_Valid_Instance of the source file. -/
def Color_Temperature_Valid_Instance (st : DeviceState)
    (object_instance : Nat) : Bool :=
  (Keylist_Data st.objectList object_instance).isSome

/-- Color_Temperature_Count of the source file. -/
def Color_Temperature_Count (st : DeviceState) : Nat :=
  Keylist_Count st.objectList

/-- Color_Temperature_Present_Value of the source file. -/
def Color_Temperature_Present_Value (st : DeviceState)
    (object_instance : Nat) : Nat :=
  match Keylist_Data st.objectList object_instance with
  | some obj => obj.Present_Value
  | none => 0

/-- Color_Temperature_Tracking_Value of the source file. -/
def Color_Temperature_Tracking_Value (st : DeviceState)
    (object_instance : Nat) : Nat :=
  match Keylist_Data st.objectList object_instance with
  | some obj => obj.Tracking_Value
  | none => 0

/-- Color_Temperature_Min_Pres_Value of the source file. -/
def Color_Temperature_Min_Pres_Value (st : DeviceState)
    (object_instance : Nat) : Nat :=
  match Keylist_Data st.objectList object_instance with
  | some obj => obj.Present_Value_Minimum
  | none => 0

/-- Color_Temperature_Max_Pres_Value of the source file. -/
def Color_Temperature_Max_Pres_Value (st : DeviceState)
    (object_instance : Nat) : Nat :=
  match Keylist_Data st.objectList object_instance with
  | some obj => obj.Present_Value_Maximum
  | none => 0

/-- Color_Temperature_In_Progress of the source file. -/
def Color_Temperature_In_Progress (st : DeviceState)
    (object_instance : Nat) : Nat :=
  match Keylist_Data st.objectList object_instance with
  | some obj => obj.In_Progress
  | none => BACNET_COLOR_OPERATION_IN_PROGRESS_MAX

/-- Color_Temperature_Default_Color_Temperature of the source file. -/
def Color_Temperature_Default_Color_Temperature (st : DeviceState)
    (object_instance : Nat) : Nat :=
  match Keylist_Data st.objectList object_instance with
  | some obj => obj.Default_Color_Temperature
  | none => 0

/-- Color_Temperature_Default_Fade_Time of the source file. -/
def Color_Temperature_Default_Fade_Time (st : DeviceState)
    (object_instance : Nat) : Nat :=
  match Keylist_Data st.objectList object_instance with
  | some obj => obj.Default_Fade_Time
  | none => 0

/-- Color_Temperature_Default_Ramp_Rate of the source file. -/
def Color_Temperature_Default_Ramp_Rate (st : DeviceState)
    (object_instance : Nat) : Nat :=
  match Keylist_Data st.objectList object_instance with
  | some obj => obj.Default_Ramp_Rate
  | none => 0

/-- Color_Temperature_Default_Step_Increment of the source file. -/
def Color_Temperature_Default_Step_Increment (st : DeviceState)
    (object_instance : Nat) : Nat :=
  match Keylist_Data st.objectList object_instance with
  | some obj => obj.Default_Step_Increment
  | none => 0

/-- Color_Temperature_Transition of the source file. -/
def Color_Temperature_Transition (st : DeviceState)
    (object_instance : Nat) : Nat :=
  match Keylist_Data st.objectList object_instance with
  | some obj => obj.Transition
  | none => BACNET_COLOR_TRANSITION_NONE

/-- Color_Temperature_Description of the source file: the stored
description, the empty string when none is stored, or NULL (none) when the
instance is absent. -/
def Color_Temperature_Description (st : DeviceState)
    (object_instance : Nat) : Option String :=
  match Keylist_Data st.objectList object_instance with
  | some obj =>
    match obj.Description with
    | some d => some d
    | none => some ""
  | none => none

/-- Color_Temperature_Write_Enabled of the source file. -/
def Color_Temperature_Write_Enabled (st : DeviceState)
    (object_instance : Nat) : Bool :=
  match Keylist_Data st.objectList object_instance with
  | some obj => obj.Write_Enabled
  | none => false

/-- Color_Temperature_Write_Enable of the source file. -/
def Color_Temperature_Write_Enable (st : DeviceState)
    (object_instance : Nat) : DeviceState :=
  match Keylist_Data st.objectList object_instance with
  | some _ =>
    { st with objectList :=
        (Keylist_Data_Update object_instance
          (fun o => { o with Write_Enabled := true }) st.objectList) }
  | none => st

/-- Color_Temperature_Name_Set of the source file: refuse absent instances
and NULL names; otherwise scan the device for a name collision, accept a
collision only when it reports type OBJECT_COLOR with the same instance,
and commit a collision-free name, bumping the database revision. -/
def Color_Temperature_Name_Set (st : DeviceState) (object_instance : Nat)
    (new_name : Option String) : Bool × DeviceState :=
  match Keylist_Data st.objectList object_instance, new_name with
  | some _, some name =>
    match Device_Valid_Object_Name st name with
    | some (found_type, found_instance) =>
      if found_type = OBJECT_COLOR ∧ found_instance = object_instance then
        (true, st)
      else
        (false, st)
    | none =>
      (true, Device_Inc_Database_Revision
        { st with objectList :=
            (Keylist_Data_Update object_instance
              (fun o => { o with Object_Name := some name })
              st.objectList) })
  | _, _ => (false, st)

/-- Modelled from the spec: minimal-width byte count of an unsigned value
(big-endian, no leading-zero bytes); the encoders live in bacdcode.c,
which is not under src/. -/
def bacnet_unsigned_length (value : Nat) : Nat :=
  if value < 256 then 1
  else if value < 65536 then 2
  else if value < 16777216 then 3
  else 4

/-- Modelled from the spec: byte count of an application-tagged unsigned
value — one tag byte plus the minimal-width payload. -/
def encode_application_unsigned (value : Nat) : Nat :=
  1 + bacnet_unsigned_length value

/-- Modelled from the spec: byte count of an application-tagged enumerated
value. -/
def encode_application_enumerated (value : Nat) : Nat :=
  1 + bacnet_unsigned_length value

/-- Modelled from the spec: byte count of an application-tagged object
identifier — one tag byte plus the 32-bit packed type and instance. -/
def encode_application_object_id : Nat := 5

/-- Modelled from the spec: additional length-prefix bytes of the
extended-length escalation for a payload of the given length. -/
def bacnet_tag_length_prefix (len : Nat) : Nat :=
  if len ≤ 4 then 0
  else if len < 254 then 1
  else if len ≤ 65535 then 3
  else 5

/-- Modelled from the spec: byte count of an application-tagged character
string — tag byte, length escalation, encoding byte, payload. -/
def encode_application_character_string (s : String) : Nat :=
  1 + bacnet_tag_length_prefix (s.length + 1) + 1 + s.length

/-- Modelled from the spec: byte count of the encoded color command — the
context tag of the operation plus its minimal-width enum payload
(lighting.c is not under src/). -/
def color_command_encode (cc : BACNET_COLOR_COMMAND) : Nat :=
  1 + bacnet_unsigned_length cc.operation

/-- The read-property request structure of the source: the identifying
triple, the array index, and the output buffer expressed by whether the
buffer pointer is NULL and its declared length. -/
structure BACNET_READ_PROPERTY_DATA where
  object_type : BACNET_OBJECT_TYPE
  object_instance : Nat
  object_property : BACNET_PROPERTY_ID
  array_index : Nat
  application_data_null : Bool
  application_data_len : Nat
  deriving DecidableEq

/-- The property switch of Color_Temperature_Read_Property: the byte count
placed in the reply for each supported property (buffers are modelled by
their encoded byte counts), or the unknown-property error. -/
def Color_Temperature_Read_Property_Switch (st : DeviceState)
    (rpdata : BACNET_READ_PROPERTY_DATA) : Int × Option BACnetErrorPair :=
  match rpdata.object_property with
  | .objectIdentifier => (Int.ofNat encode_application_object_id, none)
  | .objectName =>
    (Int.ofNat (encode_application_character_string
      (match Keylist_Data st.objectList rpdata.object_instance with
       | some obj =>
         color_temperature_effective_name rpdata.object_instance obj
       | none => "")), none)
  | .objectType =>
    (Int.ofNat (encode_application_enumerated
      (object_type_value rpdata.object_type)), none)
  | .presentValue =>
    (Int.ofNat (encode_application_unsigned
      (Color_Temperature_Present_Value st rpdata.object_instance)), none)
  | .minPresValue =>
    (Int.ofNat (encode_application_unsigned
      (Color_Temperature_Min_Pres_Value st rpdata.object_instance)), none)
  | .maxPresValue =>
    (Int.ofNat (encode_application_unsigned
      (Color_Temperature_Max_Pres_Value st rpdata.object_instance)), none)
  | .trackingValue =>
    (Int.ofNat (encode_application_unsigned
      (Color_Temperature_Tracking_Value st rpdata.object_instance)), none)
  | .colorCommand =>
    (Int.ofNat
      (match Keylist_Data st.objectList rpdata.object_instance with
       | some obj => color_command_encode obj.Color_Command
       | none => 0), none)
  | .inProgress =>
    (Int.ofNat (encode_application_enumerated
      (Color_Temperature_In_Progress st rpdata.object_instance)), none)
  | .defaultColorTemperature =>
    (Int.ofNat (encode_application_unsigned
      (Color_Temperature_Default_Color_Temperature st
        rpdata.object_instance)), none)
  | .defaultFadeTime =>
    (Int.ofNat (encode_application_unsigned
      (Color_Temperature_Default_Fade_Time st rpdata.object_instance)), none)
  | .defaultRampRate =>
    (Int.ofNat (encode_application_unsigned
      (Color_Temperature_Default_Ramp_Rate st rpdata.object_instance)), none)
  | .defaultStepIncrement =>
    (Int.ofNat (encode_application_unsigned
      (Color_Temperature_Default_Step_Increment st
        rpdata.object_instance)), none)
  | .transitionProp =>
    (Int.ofNat (encode_application_enumerated
      (Color_Temperature_Transition st rpdata.object_instance)), none)
  | .descriptionProp =>
    (Int.ofNat (encode_application_character_string
      (match Color_Temperature_Description st rpdata.object_instance with
       | some d => d
       | none => "")), none)
  | _ =>
    (BACNET_STATUS_ERROR,
      some (ERROR_CLASS_PROPERTY, ERROR_CODE_UNKNOWN_PROPERTY))

/-- Color_Temperature_Read_Property of the source file: the NULL-request,
NULL-buffer and zero-length guards return 0 untouched; otherwise the
property switch runs and the trailing array-option rule downgrades any
non-error byte count to the not-an-array error when a concrete array index
accompanies a non-array property. -/
def Color_Temperature_Read_Property (st : DeviceState)
    (rpdata : Option BACNET_READ_PROPERTY_DATA) :
    Int × Option BACnetErrorPair :=
  match rpdata with
  | none => (0, none)
  | some rp =>
    if rp.application_data_null ∨ rp.application_data_len = 0 then (0, none)
    else
      let r := Color_Temperature_Read_Property_Switch st rp
      if 0 ≤ r.1 ∧ rp.object_property ≠ PROP_PRIORITY_ARRAY ∧
          rp.object_property ≠ PROP_EVENT_TIME_STAMPS ∧
          rp.array_index ≠ BACNET_ARRAY_ALL then
        (BACNET_STATUS_ERROR,
          some (ERROR_CLASS_PROPERTY, ERROR_CODE_PROPERTY_IS_NOT_AN_ARRAY))
      else r

/-- A decoded application value: the one kind the Color Temperature write
path consumes, plus the other tags (bacapp.c is not under src/; the
decoder's output is modelled as its tagged result). -/
inductive BACNET_APPLICATION_DATA_VALUE where
  | unsignedInt (value : Nat)
  | otherValue (tag : Nat)
  deriving DecidableEq

def BACNET_APPLICATION_TAG_UNSIGNED_INT : Nat := 2

/-- The application tag of a decoded value. -/
def bacapp_value_tag : BACNET_APPLICATION_DATA_VALUE → Nat
  | .unsignedInt _ => BACNET_APPLICATION_TAG_UNSIGNED_INT
  | .otherValue t => t

/-- Modelled from the spec: commandable properties require the decoded tag
to match the expected primitive kind before applying (wp.c is not under
src/). -/
def write_property_type_valid (value : BACNET_APPLICATION_DATA_VALUE)
    (expected_tag : Nat) : Bool :=
  bacapp_value_tag value == expected_tag

/-- The Unsigned_Int union member of a decoded value; read only after the
tag has been validated. -/
def bacapp_unsigned : BACNET_APPLICATION_DATA_VALUE → Nat
  | .unsignedInt v => v
  | .otherValue _ => 0

/-- The write-property request structure of the source: the identifying
fields plus the decode result of its application data — none models the
decoder returning a negative length. -/
structure BACNET_WRITE_PROPERTY_DATA where
  object_instance : Nat
  object_property : BACNET_PROPERTY_ID
  array_index : Nat
  priority : Nat
  application_data_decoded : Option BACNET_APPLICATION_DATA_VALUE
  deriving DecidableEq

/-- Color_Temperature_Present_Value_Write of the source file: gated by the
record's Write_Enabled flag; priority is ignored. -/
def Color_Temperature_Present_Value_Write (st : DeviceState)
    (object_instance : Nat) (value : Nat) (priority : Nat) :
    Bool × Option BACnetErrorPair × DeviceState :=
  match Keylist_Data st.objectList object_instance with
  | some pObject =>
    if pObject.Write_Enabled then
      (true, none,
        { st with objectList :=
            (Keylist_Data_Update object_instance
              (fun o => { o with Present_Value := value })
              st.objectList) })
    else
      (false, some (ERROR_CLASS_PROPERTY, ERROR_CODE_WRITE_ACCESS_DENIED), st)
  | none =>
    (false, some (ERROR_CLASS_OBJECT, ERROR_CODE_UNKNOWN_OBJECT), st)

/-- Color_Temperature_Write_Property of the source file: decode first, then
the array-option rule, then the property switch. -/
def Color_Temperature_Write_Property (st : DeviceState)
    (wp_data : BACNET_WRITE_PROPERTY_DATA) :
    Bool × Option BACnetErrorPair × DeviceState :=
  match wp_data.application_data_decoded with
  | none =>
    (false, some (ERROR_CLASS_PROPERTY, ERROR_CODE_VALUE_OUT_OF_RANGE), st)
  | some value =>
    if wp_data.object_property ≠ PROP_PRIORITY_ARRAY ∧
        wp_data.object_property ≠ PROP_EVENT_TIME_STAMPS ∧
        wp_data.array_index ≠ BACNET_ARRAY_ALL then
      (false,
        some (ERROR_CLASS_PROPERTY, ERROR_CODE_PROPERTY_IS_NOT_AN_ARRAY), st)
    else
      match wp_data.object_property with
      | .presentValue =>
        if write_property_type_valid value BACNET_APPLICATION_TAG_UNSIGNED_INT
        then
          Color_Temperature_Present_Value_Write st wp_data.object_instance
            (bacapp_unsigned value) wp_data.priority
        else
          (false,
            some (ERROR_CLASS_PROPERTY, ERROR_CODE_INVALID_DATA_TYPE), st)
      | .objectIdentifier =>
        (false,
          some (ERROR_CLASS_PROPERTY, ERROR_CODE_WRITE_ACCESS_DENIED), st)
      | .objectType =>
        (false,
          some (ERROR_CLASS_PROPERTY, ERROR_CODE_WRITE_ACCESS_DENIED), st)
      | .objectName =>
        (false,
          some (ERROR_CLASS_PROPERTY, ERROR_CODE_WRITE_ACCESS_DENIED), st)
      | .descriptionProp =>
        (false,
          some (ERROR_CLASS_PROPERTY, ERROR_CODE_WRITE_ACCESS_DENIED), st)
      | _ =>
        (false,
          some (ERROR_CLASS_PROPERTY, ERROR_CODE_UNKNOWN_PROPERTY), st)

/-- The instance the create path actually uses: the wildcard sentinel is
replaced by the store's next empty key starting at 1. -/
def Color_Temperature_Create_Resolved (st : DeviceState)
    (object_instance : Nat) : Nat :=
  if object_instance = BACNET_MAX_INSTANCE then
    Keylist_Next_Empty_Key st.objectList 1
  else object_instance

/-- Color_Temperature_Create of the source file.  The two Bool inputs are
environment oracles for the two fallible calls of the C code: calloc of the
record and Keylist_Data_Add returning a non-negative index; when either
fails the function returns the BACNET_MAX_INSTANCE sentinel and the store
is unchanged. -/
def Color_Temperature_Create (st : DeviceState) (allocOk addOk : Bool)
    (object_instance : Nat) : Nat × DeviceState :=
  if BACNET_MAX_INSTANCE < object_instance then (BACNET_MAX_INSTANCE, st)
  else
    let inst := Color_Temperature_Create_Resolved st object_instance
    match Keylist_Data st.objectList inst with
    | some _ => (inst, st)
    | none =>
      if allocOk then
        if addOk then
          (inst, Device_Inc_Database_Revision
            { st with objectList :=
                Keylist_Data_Add inst object_data_init st.objectList })
        else (BACNET_MAX_INSTANCE, st)
      else (BACNET_MAX_INSTANCE, st)

/-- Color_Temperature_Delete of the source file. -/
def Color_Temperature_Delete (st : DeviceState) (object_instance : Nat) :
    Bool × DeviceState :=
  match Keylist_Data_Delete st.objectList object_instance with
  | (some _, rest) =>
    (true, Device_Inc_Database_Revision { st with objectList := rest })
  | (none, _) => (false, st)

/-- The required property list of the source file (the -1 terminator of
the C array is the end of the Lean list). -/
def Color_Temperature_Properties_Required : List BACNET_PROPERTY_ID :=
  [PROP_OBJECT_IDENTIFIER, PROP_OBJECT_NAME, PROP_OBJECT_TYPE,
   PROP_PRESENT_VALUE, PROP_TRACKING_VALUE, PROP_COLOR_COMMAND,
   PROP_IN_PROGRESS, PROP_DEFAULT_COLOR_TEMPERATURE, PROP_DEFAULT_FADE_TIME,
   PROP_DEFAULT_RAMP_RATE, PROP_DEFAULT_STEP_INCREMENT]

/-- The optional property list of the source file. -/
def Color_Temperature_Properties_Optional : List BACNET_PROPERTY_ID :=
  [PROP_DESCRIPTION, PROP_TRANSITION, PROP_MIN_PRES_VALUE,
   PROP_MAX_PRES_VALUE]

/-- The proprietary property list of the source file is empty. -/
def Color_Temperature_Properties_Proprietary : List BACNET_PROPERTY_ID := []

/-- Sortedness invariant of the keyed object store: instance numbers are
strictly increasing in iteration order. -/
def Keylist_Sorted (list : List (Nat × object_data)) : Prop :=
  List.Pairwise (fun a b => a.1 < b.1) list

/-- A device with an empty Color Temperature store. -/
def empty_device_state : DeviceState :=
  { objectList := [], databaseRevision := 0, otherObjects := [] }

/-- A device holding one freshly initialized Color Temperature instance. -/
def sample_device_state : DeviceState :=
  { objectList := [(1, object_data_init)], databaseRevision := 0,
    otherObjects := [] }

/-- A device holding one write-enabled Color Temperature instance. -/
def sample_device_state_enabled : DeviceState :=
  { objectList := [(1, { object_data_init with Write_Enabled := true })],
    databaseRevision := 0, otherObjects := [] }

/-! Helper lemmas about the keyed object store. -/

theorem keylist_data_eq_none_of_not_mem (l : List (Nat × object_data))
    (k : Nat) (h : k ∉ l.map Prod.fst) : Keylist_Data l k = none := by
  induction l with
  | nil => rfl
  | cons p rest ih =>
    obtain ⟨key, d⟩ := p
    simp only [List.map_cons, List.mem_cons, not_or] at h
    obtain ⟨h1, h2⟩ := h
    simp only [Keylist_Data]
    rw [if_neg (fun hk => h1 hk.symm)]
    exact ih h2

theorem keylist_data_update_found (l : List (Nat × object_data)) (k : Nat)
    (f : object_data → object_data) :
    Keylist_Data (Keylist_Data_Update k f l) k = (Keylist_Data l k).map f := by
  induction l with
  | nil => rfl
  | cons p rest ih =>
    obtain ⟨key, d⟩ := p
    by_cases h : key = k
    · simp [Keylist_Data_Update, Keylist_Data, h]
    · simp [Keylist_Data_Update, Keylist_Data, h, ih]

theorem keylist_next_empty_ge (l : List (Nat × object_data)) :
    ∀ key, key ≤ Keylist_Next_Empty_Key l key := by
  induction l with
  | nil => intro key; simp [Keylist_Next_Empty_Key]
  | cons p rest ih =>
    intro key
    obtain ⟨k, d⟩ := p
    simp only [Keylist_Next_Empty_Key]
    by_cases h1 : k < key
    · simpa [h1] using ih key
    · by_cases h2 : k = key
      · have h3 := ih (key + 1)
        simp only [if_neg h1, if_pos h2]
        omega
      · simp [h1, h2]

theorem keylist_next_empty_not_mem (l : List (Nat × object_data))
    (hs : Keylist_Sorted l) :
    ∀ key, Keylist_Next_Empty_Key l key ∉ l.map Prod.fst := by
  induction l with
  | nil => intro key; simp
  | cons p rest ih =>
    intro key
    obtain ⟨k, d⟩ := p
    rw [Keylist_Sorted, List.pairwise_cons] at hs
    obtain ⟨hhead, hrest⟩ := hs
    simp only [Keylist_Next_Empty_Key, List.map_cons, List.mem_cons, not_or]
    by_cases h1 : k < key
    · rw [if_pos h1]
      refine ⟨?_, ih hrest key⟩
      have := keylist_next_empty_ge rest key
      omega
    · by_cases h2 : k = key
      · rw [if_neg h1, if_pos h2]
        refine ⟨?_, ih hrest (key + 1)⟩
        have := keylist_next_empty_ge rest (key + 1)
        omega
      · rw [if_neg h1, if_neg h2]
        refine ⟨fun hk => h2 hk.symm, fun hmem => ?_⟩
        obtain ⟨q, hq, hq1⟩ := List.mem_map.mp hmem
        have := hhead q hq
        omega

theorem keylist_next_empty_min (l : List (Nat × object_data))
    (hs : Keylist_Sorted l) :
    ∀ key m, key ≤ m → m < Keylist_Next_Empty_Key l key →
      m ∈ l.map Prod.fst := by
  induction l with
  | nil =>
    intro key m h1 h2
    simp only [Keylist_Next_Empty_Key] at h2
    omega
  | cons p rest ih =>
    intro key m h1 h2
    obtain ⟨k, d⟩ := p
    rw [Keylist_Sorted, List.pairwise_cons] at hs
    obtain ⟨hhead, hrest⟩ := hs
    simp only [Keylist_Next_Empty_Key] at h2
    simp only [List.map_cons, List.mem_cons]
    by_cases c1 : k < key
    · rw [if_pos c1] at h2
      exact Or.inr (ih hrest key m h1 h2)
    · by_cases c2 : k = key
      · rw [if_neg c1, if_pos c2] at h2
        by_cases cm : m = key
        · exact Or.inl (by omega)
        · exact Or.inr (ih hrest (key + 1) m (by omega) h2)
      · rw [if_neg c1, if_neg c2] at h2
        omega

/-! Claim theorems. -/

/-- C1: at the failing input — one live Color Temperature instance 1 whose
stored name is X and no other object in the device — the device-wide name
scan reports the name X as held by (Color Temperature, 1), yet writing that
same name back to instance 1 returns false and changes nothing: the source
compares the found type against OBJECT_COLOR instead of the object's own
type, so rewriting an instance's own current name is rejected as a
duplicate instead of succeeding as a no-op. -/
theorem name_set_rejects_own_current_name :
    Device_Valid_Object_Name
      { objectList := [(1, { object_data_init with Object_Name := some "X" })],
        databaseRevision := 0, otherObjects := [] } "X"
      = some (OBJECT_COLOR_TEMPERATURE, 1)
    ∧ Color_Temperature_Name_Set
      { objectList := [(1, { object_data_init with Object_Name := some "X" })],
        databaseRevision := 0, otherObjects := [] } 1 (some "X")
      = (false,
        { objectList :=
            [(1, { object_data_init with Object_Name := some "X" })],
          databaseRevision := 0, otherObjects := [] }) := by
  decide

/-- C2: a create call with the wildcard sentinel allocates the lowest
unused instance number greater than or equal to 1 — it returns the store's
next empty key, which is at least 1, absent from the store, and preceded
only by present keys — and in the concrete scenario create 1, 2, 3, delete
2, create wildcard, the allocated instance is the gap 2. -/
theorem create_wildcard_allocates_lowest_unused :
    (∀ st : DeviceState, Keylist_Sorted st.objectList →
      (Color_Temperature_Create st true true BACNET_MAX_INSTANCE).1
          = Keylist_Next_Empty_Key st.objectList 1
        ∧ 1 ≤ Keylist_Next_Empty_Key st.objectList 1
        ∧ Keylist_Next_Empty_Key st.objectList 1 ∉ st.objectList.map Prod.fst
        ∧ (∀ m, 1 ≤ m → m < Keylist_Next_Empty_Key st.objectList 1 →
            m ∈ st.objectList.map Prod.fst))
    ∧ (Color_Temperature_Create
        (Color_Temperature_Delete
          (Color_Temperature_Create
            (Color_Temperature_Create
              (Color_Temperature_Create empty_device_state true true 1).2
              true true 2).2
            true true 3).2 2).2
        true true BACNET_MAX_INSTANCE).1 = 2 := by
  constructor
  · intro st hs
    have hne : Keylist_Data st.objectList
        (Keylist_Next_Empty_Key st.objectList 1) = none :=
      keylist_data_eq_none_of_not_mem _ _ (keylist_next_empty_not_mem _ hs 1)
    refine ⟨?_, keylist_next_empty_ge _ 1,
      keylist_next_empty_not_mem _ hs 1, keylist_next_empty_min _ hs 1⟩
    simp [Color_Temperature_Create, Color_Temperature_Create_Resolved, hne]
  · decide

/-- Witness for C2 at a concrete sorted store holding only instance 1. -/
theorem create_wildcard_allocates_lowest_unused_witness :
    (Color_Temperature_Create sample_device_state true true
        BACNET_MAX_INSTANCE).1
      = Keylist_Next_Empty_Key sample_device_state.objectList 1
    ∧ 1 ≤ Keylist_Next_Empty_Key sample_device_state.objectList 1
    ∧ Keylist_Next_Empty_Key sample_device_state.objectList 1
        ∉ sample_device_state.objectList.map Prod.fst
    ∧ (∀ m, 1 ≤ m →
        m < Keylist_Next_Empty_Key sample_device_state.objectList 1 →
        m ∈ sample_device_state.objectList.map Prod.fst) :=
  create_wildcard_allocates_lowest_unused.1 sample_device_state
    (by simp [Keylist_Sorted, sample_device_state])

/-- C3: for an existing instance, a write of Present Value through
Color_Temperature_Write_Property with a decoded unsigned value is gated by
the record's Write_Enabled flag: disabled, it returns false with
(PROPERTY, WRITE_ACCESS_DENIED) and leaves the whole state — in particular
the stored Present_Value — unchanged; enabled, it returns true and the
decoded value becomes the stored Present_Value. -/
theorem write_present_value_gated_by_write_enabled
    (st : DeviceState) (inst v pr : Nat) (obj : object_data)
    (hobj : Keylist_Data st.objectList inst = some obj) :
    (obj.Write_Enabled = false →
      Color_Temperature_Write_Property st
        { object_instance := inst, object_property := PROP_PRESENT_VALUE,
          array_index := BACNET_ARRAY_ALL, priority := pr,
          application_data_decoded := some (.unsignedInt v) }
      = (false,
          some (ERROR_CLASS_PROPERTY, ERROR_CODE_WRITE_ACCESS_DENIED), st))
    ∧ (obj.Write_Enabled = true →
      (Color_Temperature_Write_Property st
        { object_instance := inst, object_property := PROP_PRESENT_VALUE,
          array_index := BACNET_ARRAY_ALL, priority := pr,
          application_data_decoded := some (.unsignedInt v) }).1 = true
      ∧ Color_Temperature_Present_Value
          (Color_Temperature_Write_Property st
            { object_instance := inst, object_property := PROP_PRESENT_VALUE,
              array_index := BACNET_ARRAY_ALL, priority := pr,
              application_data_decoded := some (.unsignedInt v) }).2.2 inst
        = v) := by
  constructor
  · intro h
    simp [Color_Temperature_Write_Property, write_property_type_valid,
      bacapp_value_tag, bacapp_unsigned,
      Color_Temperature_Present_Value_Write, hobj, h]
  · intro h
    have hres : Color_Temperature_Write_Property st
        { object_instance := inst, object_property := PROP_PRESENT_VALUE,
          array_index := BACNET_ARRAY_ALL, priority := pr,
          application_data_decoded := some (.unsignedInt v) }
        = (true, none,
          { st with objectList :=
              (Keylist_Data_Update inst
                (fun o => { o with Present_Value := v }) st.objectList) }) := by
      simp [Color_Temperature_Write_Property, write_property_type_valid,
        bacapp_value_tag, bacapp_unsigned,
        Color_Temperature_Present_Value_Write, hobj, h]
    constructor
    · rw [hres]
    · rw [hres]
      simp [Color_Temperature_Present_Value, keylist_data_update_found, hobj]

/-- Witness for C3: with the write flag disabled the write is denied, and
on the write-enabled device the value 4000 is stored. -/
theorem write_present_value_gated_by_write_enabled_witness :
    (Color_Temperature_Write_Property sample_device_state
      { object_instance := 1, object_property := PROP_PRESENT_VALUE,
        array_index := BACNET_ARRAY_ALL, priority := 0,
        application_data_decoded := some (.unsignedInt 4000) }
      = (false,
          some (ERROR_CLASS_PROPERTY, ERROR_CODE_WRITE_ACCESS_DENIED),
          sample_device_state))
    ∧ ((Color_Temperature_Write_Property sample_device_state_enabled
        { object_instance := 1, object_property := PROP_PRESENT_VALUE,
          array_index := BACNET_ARRAY_ALL, priority := 0,
          application_data_decoded := some (.unsignedInt 4000) }).1 = true
      ∧ Color_Temperature_Present_Value
          (Color_Temperature_Write_Property sample_device_state_enabled
            { object_instance := 1, object_property := PROP_PRESENT_VALUE,
              array_index := BACNET_ARRAY_ALL, priority := 0,
              application_data_decoded :=
                some (.unsignedInt 4000) }).2.2 1 = 4000) :=
  ⟨(write_present_value_gated_by_write_enabled sample_device_state 1 4000 0
      object_data_init (by decide)).1 (by decide),
    (write_present_value_gated_by_write_enabled sample_device_state_enabled
      1 4000 0 { object_data_init with Write_Enabled := true }
      (by decide)).2 (by decide)⟩

/-- C4: every property supported by the Color Temperature object (its
required and optional lists; neither Priority Array nor Event Time Stamps
is among them) read with a concrete array index — any index other than the
whole-property sentinel — yields BACNET_STATUS_ERROR with the error pair
(PROPERTY, PROPERTY_IS_NOT_AN_ARRAY). -/
theorem read_nonarray_property_with_index_is_error
    (st : DeviceState) (rp : BACNET_READ_PROPERTY_DATA)
    (hp : rp.object_property ∈
      Color_Temperature_Properties_Required ++
        Color_Temperature_Properties_Optional)
    (hnull : rp.application_data_null = false)
    (hlen : rp.application_data_len ≠ 0)
    (hidx : rp.array_index ≠ BACNET_ARRAY_ALL) :
    Color_Temperature_Read_Property st (some rp)
      = (BACNET_STATUS_ERROR,
        some (ERROR_CLASS_PROPERTY, ERROR_CODE_PROPERTY_IS_NOT_AN_ARRAY)) := by
  obtain ⟨ot, oi, prop, ai, an, al⟩ := rp
  simp only at hp hnull hlen hidx
  subst hnull
  simp only [Color_Temperature_Properties_Required,
    Color_Temperature_Properties_Optional, List.mem_append,
    List.mem_cons, List.not_mem_nil, or_false] at hp
  rcases hp with
    ((rfl|rfl|rfl|rfl|rfl|rfl|rfl|rfl|rfl|rfl|rfl)|(rfl|rfl|rfl|rfl)) <;>
    simp [Color_Temperature_Read_Property,
      Color_Temperature_Read_Property_Switch, hlen, hidx,
      Int.ofNat_nonneg]

/-- Witness for C4: reading Present Value of instance 1 with concrete
array index 1 fails with the not-an-array error. -/
theorem read_nonarray_property_with_index_is_error_witness :
    Color_Temperature_Read_Property sample_device_state
      (some { object_type := OBJECT_COLOR_TEMPERATURE, object_instance := 1,
              object_property := PROP_PRESENT_VALUE, array_index := 1,
              application_data_null := false, application_data_len := 50 })
      = (BACNET_STATUS_ERROR,
        some (ERROR_CLASS_PROPERTY, ERROR_CODE_PROPERTY_IS_NOT_AN_ARRAY)) :=
  read_nonarray_property_with_index_is_error sample_device_state
    { object_type := OBJECT_COLOR_TEMPERATURE, object_instance := 1,
      object_property := PROP_PRESENT_VALUE, array_index := 1,
      application_data_null := false, application_data_len := 50 }
    (by decide) (by decide) (by decide) (by decide)

/-- C5: every write request whose application data fails to decode — the
decoder returns a negative length, i.e. no decoded value — is refused with
(PROPERTY, VALUE_OUT_OF_RANGE) and the whole device state is unchanged. -/
theorem write_decode_failure_is_out_of_range (st : DeviceState)
    (wp_data : BACNET_WRITE_PROPERTY_DATA)
    (h : wp_data.application_data_decoded = none) :
    Color_Temperature_Write_Property st wp_data
      = (false,
        some (ERROR_CLASS_PROPERTY, ERROR_CODE_VALUE_OUT_OF_RANGE), st) := by
  simp [Color_Temperature_Write_Property, h]

/-- Witness for C5 at a concrete undecodable request. -/
theorem write_decode_failure_is_out_of_range_witness :
    Color_Temperature_Write_Property sample_device_state
      { object_instance := 1, object_property := PROP_PRESENT_VALUE,
        array_index := BACNET_ARRAY_ALL, priority := 0,
        application_data_decoded := none }
      = (false,
        some (ERROR_CLASS_PROPERTY, ERROR_CODE_VALUE_OUT_OF_RANGE),
        sample_device_state) :=
  write_decode_failure_is_out_of_range sample_device_state
    { object_instance := 1, object_property := PROP_PRESENT_VALUE,
      array_index := BACNET_ARRAY_ALL, priority := 0,
      application_data_decoded := none }
    (by decide)

/-- C6 counterexample: a write to the non-array Present Value property
carrying the concrete array index 1 and undecodable value bytes ends with
(PROPERTY, VALUE_OUT_OF_RANGE) — the decode-failure error, not the
not-an-array error the claim predicts. -/
theorem write_undecodable_with_index_is_decode_error :
    (Color_Temperature_Write_Property empty_device_state
      { object_instance := 1, object_property := PROP_PRESENT_VALUE,
        array_index := 1, priority := 0,
        application_data_decoded := none }).2.1
      = some (ERROR_CLASS_PROPERTY, ERROR_CODE_VALUE_OUT_OF_RANGE)
    ∧ (Color_Temperature_Write_Property empty_device_state
      { object_instance := 1, object_property := PROP_PRESENT_VALUE,
        array_index := 1, priority := 0,
        application_data_decoded := none }).2.1
      ≠ some (ERROR_CLASS_PROPERTY, ERROR_CODE_PROPERTY_IS_NOT_AN_ARRAY) := by
  decide

/-- C6 amended: the write path decodes the incoming value before checking
array-index legality — an undecodable request fails with
(PROPERTY, VALUE_OUT_OF_RANGE) whatever its array index, and the
not-an-array error arises only for requests that decoded successfully. -/
theorem write_decode_precedes_array_check (st : DeviceState)
    (wp_data : BACNET_WRITE_PROPERTY_DATA) :
    (wp_data.application_data_decoded = none →
      Color_Temperature_Write_Property st wp_data
        = (false,
          some (ERROR_CLASS_PROPERTY, ERROR_CODE_VALUE_OUT_OF_RANGE), st))
    ∧ (∀ value, wp_data.application_data_decoded = some value →
      wp_data.object_property ≠ PROP_PRIORITY_ARRAY →
      wp_data.object_property ≠ PROP_EVENT_TIME_STAMPS →
      wp_data.array_index ≠ BACNET_ARRAY_ALL →
      Color_Temperature_Write_Property st wp_data
        = (false,
          some (ERROR_CLASS_PROPERTY, ERROR_CODE_PROPERTY_IS_NOT_AN_ARRAY),
          st)) := by
  constructor
  · intro h
    simp [Color_Temperature_Write_Property, h]
  · intro value h h1 h2 h3
    simp [Color_Temperature_Write_Property, h, h1, h2, h3]

/-- Witness for C6 amended: a decoded request for a non-array property with
concrete index 1 is refused as not-an-array. -/
theorem write_decode_precedes_array_check_witness :
    Color_Temperature_Write_Property empty_device_state
      { object_instance := 1, object_property := PROP_PRESENT_VALUE,
        array_index := 1, priority := 0,
        application_data_decoded := some (.unsignedInt 3) }
      = (false,
        some (ERROR_CLASS_PROPERTY, ERROR_CODE_PROPERTY_IS_NOT_AN_ARRAY),
        empty_device_state) :=
  (write_decode_precedes_array_check empty_device_state
    { object_instance := 1, object_property := PROP_PRESENT_VALUE,
      array_index := 1, priority := 0,
      application_data_decoded := some (.unsignedInt 3) }).2
    (.unsignedInt 3) (by decide) (by decide) (by decide) (by decide)

/-- C7 counterexample: on a write-enabled instance with revision counter 0,
a Present Value write of 4000 succeeds and changes the externally-visible
Present Value from 0 to 4000, yet the device-wide database revision counter
stays 0 — a successful property write changing externally-visible state
does not increment the revision counter. -/
theorem enabled_present_value_write_keeps_revision :
    (Color_Temperature_Write_Property sample_device_state_enabled
      { object_instance := 1, object_property := PROP_PRESENT_VALUE,
        array_index := BACNET_ARRAY_ALL, priority := 0,
        application_data_decoded := some (.unsignedInt 4000) }).1 = true
    ∧ Color_Temperature_Present_Value sample_device_state_enabled 1 = 0
    ∧ Color_Temperature_Present_Value
        (Color_Temperature_Write_Property sample_device_state_enabled
          { object_instance := 1, object_property := PROP_PRESENT_VALUE,
            array_index := BACNET_ARRAY_ALL, priority := 0,
            application_data_decoded := some (.unsignedInt 4000) }).2.2 1
      = 4000
    ∧ (Color_Temperature_Write_Property sample_device_state_enabled
        { object_instance := 1, object_property := PROP_PRESENT_VALUE,
          array_index := BACNET_ARRAY_ALL, priority := 0,
          application_data_decoded := some (.unsignedInt 4000) }).2.2.databaseRevision
      = sample_device_state_enabled.databaseRevision := by
  decide

/-- C7 amended: a create that adds a record and a delete that removes a
record each increment the device-wide database revision counter exactly
once, but a successful enabled Present Value write — though it changes
externally-visible state — leaves the revision counter unchanged. -/
theorem database_revision_on_structural_mutation :
    (∀ st : DeviceState, ∀ inst, inst < BACNET_MAX_INSTANCE →
      Keylist_Data st.objectList inst = none →
      (Color_Temperature_Create st true true inst).2.databaseRevision
        = st.databaseRevision + 1)
    ∧ (∀ st : DeviceState, ∀ inst,
      ((Keylist_Data_Delete st.objectList inst).1).isSome = true →
      (Color_Temperature_Delete st inst).2.databaseRevision
        = st.databaseRevision + 1)
    ∧ (∀ st : DeviceState, ∀ inst v pr, ∀ obj : object_data,
      Keylist_Data st.objectList inst = some obj →
      obj.Write_Enabled = true →
      (Color_Temperature_Write_Property st
        { object_instance := inst, object_property := PROP_PRESENT_VALUE,
          array_index := BACNET_ARRAY_ALL, priority := pr,
          application_data_decoded :=
            some (.unsignedInt v) }).2.2.databaseRevision
        = st.databaseRevision) := by
  refine ⟨?_, ?_, ?_⟩
  · intro st inst h1 h2
    have ha : ¬ BACNET_MAX_INSTANCE < inst := by omega
    have hb : inst ≠ BACNET_MAX_INSTANCE := by omega
    simp [Color_Temperature_Create, Color_Temperature_Create_Resolved,
      ha, hb, h2, Device_Inc_Database_Revision]
  · intro st inst h
    obtain ⟨d, hd⟩ := Option.isSome_iff_exists.mp h
    unfold Color_Temperature_Delete
    rcases hp : Keylist_Data_Delete st.objectList inst with ⟨od, rest⟩
    rw [hp] at hd
    simp at hd
    subst hd
    simp [Device_Inc_Database_Revision]
  · intro st inst v pr obj hobj h
    have hres : Color_Temperature_Write_Property st
        { object_instance := inst, object_property := PROP_PRESENT_VALUE,
          array_index := BACNET_ARRAY_ALL, priority := pr,
          application_data_decoded := some (.unsignedInt v) }
        = (true, none,
          { st with objectList :=
              (Keylist_Data_Update inst
                (fun o => { o with Present_Value := v }) st.objectList) }) := by
      simp [Color_Temperature_Write_Property, write_property_type_valid,
        bacapp_value_tag, bacapp_unsigned,
        Color_Temperature_Present_Value_Write, hobj, h]
    rw [hres]

/-- Witness for C7 amended: create and delete bump the counter, the
enabled Present Value write does not. -/
theorem database_revision_on_structural_mutation_witness :
    (Color_Temperature_Create empty_device_state true true 1).2.databaseRevision
      = empty_device_state.databaseRevision + 1
    ∧ (Color_Temperature_Delete sample_device_state 1).2.databaseRevision
      = sample_device_state.databaseRevision + 1
    ∧ (Color_Temperature_Write_Property sample_device_state_enabled
        { object_instance := 1, object_property := PROP_PRESENT_VALUE,
          array_index := BACNET_ARRAY_ALL, priority := 0,
          application_data_decoded :=
            some (.unsignedInt 9) }).2.2.databaseRevision
      = sample_device_state_enabled.databaseRevision :=
  ⟨database_revision_on_structural_mutation.1 empty_device_state 1
      (by decide) (by decide),
    database_revision_on_structural_mutation.2.1 sample_device_state 1
      (by decide),
    database_revision_on_structural_mutation.2.2 sample_device_state_enabled
      1 9 0 { object_data_init with Write_Enabled := true }
      (by decide) (by decide)⟩

/-- C8: Color_Temperature_Create reports range and resource failure with
the BACNET_MAX_INSTANCE sentinel and leaves the device unchanged: a
requested instance above BACNET_MAX_INSTANCE is refused; a record
allocation failure is refused; an insertion failure is refused; and every
requested instance in the valid range 0..4194302 that is free is created
under its own number. -/
theorem create_failure_returns_max_instance_sentinel :
    (∀ st : DeviceState, ∀ a b : Bool, ∀ inst,
      BACNET_MAX_INSTANCE < inst →
      Color_Temperature_Create st a b inst = (BACNET_MAX_INSTANCE, st))
    ∧ (∀ st : DeviceState, ∀ b : Bool, ∀ inst,
      inst ≤ BACNET_MAX_INSTANCE →
      Keylist_Data st.objectList
        (Color_Temperature_Create_Resolved st inst) = none →
      Color_Temperature_Create st false b inst = (BACNET_MAX_INSTANCE, st))
    ∧ (∀ st : DeviceState, ∀ inst,
      inst ≤ BACNET_MAX_INSTANCE →
      Keylist_Data st.objectList
        (Color_Temperature_Create_Resolved st inst) = none →
      Color_Temperature_Create st true false inst
        = (BACNET_MAX_INSTANCE, st))
    ∧ (∀ st : DeviceState, ∀ inst,
      inst < BACNET_MAX_INSTANCE →
      Keylist_Data st.objectList inst = none →
      (Color_Temperature_Create st true true inst).1 = inst) := by
  refine ⟨?_, ?_, ?_, ?_⟩
  · intro st a b inst h
    simp [Color_Temperature_Create, h]
  · intro st b inst h1 h2
    have ha : ¬ BACNET_MAX_INSTANCE < inst := by omega
    simp [Color_Temperature_Create, ha, h2]
  · intro st inst h1 h2
    have ha : ¬ BACNET_MAX_INSTANCE < inst := by omega
    simp [Color_Temperature_Create, ha, h2]
  · intro st inst h1 h2
    have ha : ¬ BACNET_MAX_INSTANCE < inst := by omega
    have hb : inst ≠ BACNET_MAX_INSTANCE := by omega
    simp [Color_Temperature_Create, Color_Temperature_Create_Resolved,
      ha, hb, h2]

/-- Witness for C8: an over-range request, an allocation failure, an
insertion failure, and a successful in-range creation. -/
theorem create_failure_returns_max_instance_sentinel_witness :
    Color_Temperature_Create empty_device_state true true 4194304
      = (BACNET_MAX_INSTANCE, empty_device_state)
    ∧ Color_Temperature_Create empty_device_state false true 0
      = (BACNET_MAX_INSTANCE, empty_device_state)
    ∧ Color_Temperature_Create empty_device_state true false 0
      = (BACNET_MAX_INSTANCE, empty_device_state)
    ∧ (Color_Temperature_Create empty_device_state true true 5).1 = 5 :=
  ⟨create_failure_returns_max_instance_sentinel.1 empty_device_state
      true true 4194304 (by decide),
    create_failure_returns_max_instance_sentinel.2.1 empty_device_state
      true 0 (by decide) (by decide),
    create_failure_returns_max_instance_sentinel.2.2.1 empty_device_state
      0 (by decide) (by decide),
    create_failure_returns_max_instance_sentinel.2.2.2 empty_device_state
      5 (by decide) (by decide)⟩

/-- C9: creating an instance that is already live is idempotent — the call
returns the same instance number, which is not the error sentinel, and the
whole device state (store contents, record fields, revision counter) is
unchanged, whatever the allocation environment. -/
theorem create_existing_instance_is_idempotent
    (st : DeviceState) (inst : Nat) (obj : object_data) (a b : Bool)
    (h1 : inst < BACNET_MAX_INSTANCE)
    (hobj : Keylist_Data st.objectList inst = some obj) :
    Color_Temperature_Create st a b inst = (inst, st)
    ∧ (Color_Temperature_Create st a b inst).1 ≠ BACNET_MAX_INSTANCE := by
  have ha : ¬ BACNET_MAX_INSTANCE < inst := by omega
  have hb : inst ≠ BACNET_MAX_INSTANCE := by omega
  have hc : Color_Temperature_Create st a b inst = (inst, st) := by
    simp [Color_Temperature_Create, Color_Temperature_Create_Resolved,
      ha, hb, hobj]
  refine ⟨hc, ?_⟩
  rw [hc]
  simpa using hb

/-- Witness for C9 on the device already holding instance 1. -/
theorem create_existing_instance_is_idempotent_witness :
    Color_Temperature_Create sample_device_state true true 1
      = (1, sample_device_state)
    ∧ (Color_Temperature_Create sample_device_state true true 1).1
      ≠ BACNET_MAX_INSTANCE :=
  create_existing_instance_is_idempotent sample_device_state 1
    object_data_init true true (by decide) (by decide)

/-- C10: a NULL request structure, a NULL output buffer, or a declared
buffer length of 0 makes Color_Temperature_Read_Property return 0 with no
error pair populated, whatever the property identifier and array index;
0 is distinct from BACNET_STATUS_ERROR. -/
theorem read_property_null_guard_returns_zero :
    (∀ st, Color_Temperature_Read_Property st none = (0, none))
    ∧ (∀ st : DeviceState, ∀ rp : BACNET_READ_PROPERTY_DATA,
        rp.application_data_null = true →
        Color_Temperature_Read_Property st (some rp) = (0, none))
    ∧ (∀ st : DeviceState, ∀ rp : BACNET_READ_PROPERTY_DATA,
        rp.application_data_len = 0 →
        Color_Temperature_Read_Property st (some rp) = (0, none))
    ∧ (0 : Int) ≠ BACNET_STATUS_ERROR := by
  refine ⟨fun st => rfl, ?_, ?_, by decide⟩
  · intro st rp h
    simp [Color_Temperature_Read_Property, h]
  · intro st rp h
    simp [Color_Temperature_Read_Property, h]

/-- Witness for C10: the three guards at concrete requests. -/
theorem read_property_null_guard_returns_zero_witness :
    Color_Temperature_Read_Property empty_device_state none = (0, none)
    ∧ Color_Temperature_Read_Property sample_device_state
        (some { object_type := OBJECT_COLOR_TEMPERATURE,
                object_instance := 1,
                object_property := PROP_PRESENT_VALUE, array_index := 7,
                application_data_null := true, application_data_len := 50 })
      = (0, none)
    ∧ Color_Temperature_Read_Property sample_device_state
        (some { object_type := OBJECT_COLOR_TEMPERATURE,
                object_instance := 1,
                object_property := PROP_OBJECT_NAME,
                array_index := BACNET_ARRAY_ALL,
                application_data_null := false, application_data_len := 0 })
      = (0, none) :=
  ⟨read_property_null_guard_returns_zero.1 empty_device_state,
    read_property_null_guard_returns_zero.2.1 sample_device_state
      { object_type := OBJECT_COLOR_TEMPERATURE, object_instance := 1,
        object_property := PROP_PRESENT_VALUE, array_index := 7,
        application_data_null := true, application_data_len := 50 }
      (by decide),
    read_property_null_guard_returns_zero.2.2.1 sample_device_state
      { object_type := OBJECT_COLOR_TEMPERATURE, object_instance := 1,
        object_property := PROP_OBJECT_NAME,
        array_index := BACNET_ARRAY_ALL,
        application_data_null := false, application_data_len := 0 }
      (by decide)⟩
